import Mathlib

/-!
Verification of the zfsrabbit replication scheduler and restore manager.

The definitions below are a shallow embedding of the Go source:

* `Zfs`       — snapshot records as produced by `internal/zfs.Manager.ListSnapshots`.
* `Sched`     — the replication scheduler (`internal/scheduler/scheduler.go`,
  the version carrying `pendingSends` and `sendMutex`): the full/incremental
  send-plan decision (`sendSnapshot`), the retry drain
  (`retryPendingSendsUnsafe`), one replication run (`performSnapshot`),
  snapshot pruning (`cleanupOldSnapshots`), and the mutex entry discipline
  (`TriggerSnapshot` uses `TryLock`, the scheduled entry points use a
  blocking `Lock`).
* `Restore`   — the restore manager (`internal/restore/restore.go`, the
  version with the destructive-restore safety gate): `performRestore`,
  `checkTargetDatasetExists`, `checkForUncommittedData`, `datasetExists`,
  `verifyRestore`, and the job-table eviction timing of
  `StartRestoreFromDatasetWithTracking`.

External effects (the `zfs` binary, the SSH transport, the alerter) are
modelled as oracles passed in explicitly: an `Except String α` stands for a
Go `(α, error)` result, an `Option String` for a Go `error`.
-/

namespace Zfs

/-- One entry parsed by `zfs.Manager.ListSnapshots` from
`zfs list -t snapshot -H -o name,creation,used,refer -s creation`.
`created` is the creation time in seconds (Go `time.Time`). -/
structure Snapshot where
  name : String
  created : Nat
  used : String
  refer : String
  dataset : String
deriving Repr, DecidableEq

end Zfs

namespace Sched

open Zfs

/-- The send plan computed by `Scheduler.sendSnapshot`: either
`sendFullSnapshot` of one snapshot or `sendIncrementalSnapshot` between two. -/
inductive SendPlan where
  | full (snapshot : String)
  | incremental (base : String) (target : String)
deriving Repr, DecidableEq

/-- The nested loop of `Scheduler.sendSnapshot` that computes `lastCommon`:

    for _, remote := range remoteSnapshots {
        for _, local := range localSnapshots {
            if local.Name == remote { lastCommon = remote }
        }
    }
-/
def lastCommonSnapshot (remoteSnapshots : List String) (localSnapshots : List Snapshot) : String :=
  remoteSnapshots.foldl
    (fun lastCommon remote =>
      localSnapshots.foldl
        (fun acc localSnap => if localSnap.name = remote then remote else acc)
        lastCommon)
    ""

/-- The decision part of `Scheduler.sendSnapshot`: list remote snapshots
(aborting on enumeration failure), fall back to a full send when the remote
has no snapshots or no common snapshot is found, otherwise send incrementally
from `lastCommon`. -/
def sendSnapshotPlan (remoteList : Except String (List String))
    (localList : Except String (List Snapshot)) (snapshotName : String) :
    Except String SendPlan :=
  match remoteList with
  | .error e =>
      .error ("failed to list remote snapshots, aborting sync to prevent data loss: " ++ e)
  | .ok remoteSnapshots =>
      if remoteSnapshots.length = 0 then
        .ok (.full snapshotName)
      else
        match localList with
        | .error e => .error ("failed to list local snapshots: " ++ e)
        | .ok localSnapshots =>
            let lastCommon := lastCommonSnapshot remoteSnapshots localSnapshots
            if lastCommon = "" then
              .ok (.full snapshotName)
            else
              .ok (.incremental lastCommon snapshotName)

/-- The environment one `sendSnapshot` call runs in: the result of
`transport.ListRemoteSnapshots`, the result of `zfsManager.ListSnapshots`,
and the outcome of executing a plan (`sendFullSnapshot` /
`sendIncrementalSnapshot`: stream open, transport send, process wait —
`none` means success, `some e` the uniform failure). -/
structure SendEnv where
  remoteList : Except String (List String)
  localList : Except String (List Snapshot)
  execPlan : SendPlan → Option String

/-- Function `Scheduler.sendSnapshot snapshotName`: compute the plan, and if that
succeeded execute it. Returns the Go error (`none` = nil) together with the
list of plans actually handed to the transport. -/
def trySendSnapshot (env : SendEnv) (snapshotName : String) : Option String × List SendPlan :=
  match sendSnapshotPlan env.remoteList env.localList snapshotName with
  | .error e => (some e, [])
  | .ok plan => (env.execPlan plan, [plan])

/-- Whether a `sendSnapshot` call for `snapshotName` returns nil. -/
def sendOk (env : SendEnv) (snapshotName : String) : Bool :=
  (trySendSnapshot env snapshotName).1.isNone

/-- A call into the `SyncAlerter` interface. -/
inductive Notification where
  | syncSuccess (snapshot : String) (dataset : String) (duration : Nat)
  | syncFailure (snapshot : String) (dataset : String) (msg : String)
deriving Repr, DecidableEq

/-- The aggregate error message of `retryPendingSendsUnsafe`. -/
def stillFailedMsg (n : Nat) : String :=
  toString n ++ " snapshots still failed to send"

/-- Function `Scheduler.retryPendingSendsUnsafe`: walk the pending queue in order,
retrying each snapshot with `sendSnapshot` (so the full/incremental plan is
recomputed against the current remote and local state); keep failures,
notify success with duration 0 for the rest, and report how many entries
remain. Returns the new queue, the notifications issued, and the Go error. -/
def retryPendingSendsUnsafe (env : SendEnv) (dataset : String) (pendingSends : List String) :
    List String × List Notification × Option String :=
  if pendingSends.isEmpty then
    (pendingSends, [], none)
  else
    let step := fun (acc : List String × List Notification) (snapshotName : String) =>
      if sendOk env snapshotName then
        (acc.1, acc.2 ++ [Notification.syncSuccess snapshotName dataset 0])
      else
        (acc.1 ++ [snapshotName], acc.2)
    let drained := pendingSends.foldl step ([], [])
    (drained.1, drained.2,
      if drained.1.length > 0 then some (stillFailedMsg drained.1.length) else none)

/-- Retention ceiling of `Scheduler.cleanupOldSnapshots` (`const maxSnapshots = 30`). -/
def maxSnapshots : Nat := 30

/-- Function `Scheduler.cleanupOldSnapshots`: list the local snapshots
(creation-ascending), and when more than 30 exist destroy the prefix
`snapshots[:len-30]` one by one, logging (not raising) individual destroy
failures. Returns the Go error of the function, the names a destroy was
attempted for (in order), and the names whose destroy failed.
`destroyOk name` is the outcome of `zfsManager.DestroySnapshot name`. -/
def cleanupOldSnapshots (listResult : Except String (List Snapshot))
    (destroyOk : String → Bool) : Option String × List String × List String :=
  match listResult with
  | .error e => (some e, [], [])
  | .ok snapshots =>
      if snapshots.length ≤ maxSnapshots then
        (none, [], [])
      else
        let toDelete := snapshots.take (snapshots.length - maxSnapshots)
        (none, toDelete.map Snapshot.name,
          (toDelete.filter (fun s => ¬ destroyOk s.name)).map Snapshot.name)

/-- The snapshots still present after `cleanupOldSnapshots` ran: everything
except the attempted deletions that actually succeeded. -/
def remainingAfterCleanup (snapshots : List Snapshot) (destroyOk : String → Bool) :
    List Snapshot :=
  let attempted := (cleanupOldSnapshots (.ok snapshots) destroyOk).2.1
  snapshots.filter (fun s => ¬ (s.name ∈ attempted ∧ destroyOk s.name))

/-- Observable result of one `performSnapshot` run: the pending queue after
the run, the alerter calls made, and the cleanup outcome (`none` when
`cleanupOldSnapshots` was not reached). -/
structure RunResult where
  pendingSends : List String
  notifications : List Notification
  cleanup : Option (Option String × List String × List String)
deriving Repr, DecidableEq

/-- Function `Scheduler.performSnapshot`, run under `sendMutex`: drain the
pending queue first (failures only logged), create the snapshot
`autosnap_<timestamp>` (on failure notify and abort), send it (on failure
notify and append the name to the pending queue), on success notify with
the elapsed duration and prune old snapshots (prune failures only logged).
`drainEnv` and `sendEnv` are the environments seen by the drain and by the
new send; `createErr` is the `CreateSnapshot` outcome; `cleanupList` and
`destroyOk` feed `cleanupOldSnapshots`. -/
def performSnapshot (drainEnv sendEnv : SendEnv) (createErr : Option String)
    (cleanupList : Except String (List Snapshot)) (destroyOk : String → Bool)
    (dataset timestamp : String) (duration : Nat) (pendingSends : List String) : RunResult :=
  let snapshotName := "autosnap_" ++ timestamp
  let drained :=
    if pendingSends.length > 0 then
      let r := retryPendingSendsUnsafe drainEnv dataset pendingSends
      (r.1, r.2.1)
    else
      (pendingSends, [])
  match createErr with
  | some e =>
      { pendingSends := drained.1
        notifications := drained.2 ++ [Notification.syncFailure snapshotName dataset e]
        cleanup := none }
  | none =>
      match (trySendSnapshot sendEnv snapshotName).1 with
      | some e =>
          { pendingSends := drained.1 ++ [snapshotName]
            notifications := drained.2 ++ [Notification.syncFailure snapshotName dataset e]
            cleanup := none }
      | none =>
          { pendingSends := drained.1
            notifications := drained.2 ++ [Notification.syncSuccess snapshotName dataset duration]
            cleanup := some (cleanupOldSnapshots cleanupList destroyOk) }

/-- How an entry point interacts with `sendMutex` when invoked while a send
is (or is not) in flight. -/
inductive EntryOutcome where
  | proceed
  | blockedWait
  | busyError (msg : String)
deriving Repr, DecidableEq

/-- Entry of `Scheduler.performSnapshot`: it begins with the blocking
`s.sendMutex.Lock()`, so a concurrent scheduled run waits for the in-flight
send instead of failing fast. -/
def performSnapshotEntry (mutexHeld : Bool) : EntryOutcome :=
  if mutexHeld then .blockedWait else .proceed

/-- Entry of `Scheduler.performRetry` (the scheduled retry job): also a
blocking `s.sendMutex.Lock()`. -/
def performRetryEntry (mutexHeld : Bool) : EntryOutcome :=
  if mutexHeld then .blockedWait else .proceed

/-- Entry of `Scheduler.RetryPendingSends` (the explicit retry trigger):
also a blocking `s.sendMutex.Lock()`. -/
def retryPendingSendsEntry (mutexHeld : Bool) : EntryOutcome :=
  if mutexHeld then .blockedWait else .proceed

/-- Entry of `Scheduler.TriggerSnapshot`: `TryLock`, and when the mutex is
held return the error "snapshot operation already in progress" immediately
without launching a run. -/
def triggerSnapshotEntry (mutexHeld : Bool) : EntryOutcome :=
  if mutexHeld then .busyError "snapshot operation already in progress" else .proceed

/-- Creation time of the local snapshot carrying a given name. -/
def localCreated (locals : List Snapshot) (n : String) : Nat :=
  match locals.find? (fun s => s.name = n) with
  | some s => s.created
  | none => 0

end Sched

namespace Restore

open Zfs

/-- One restore job record (`restore.RestoreJob`). `error` is the Go
`Error` field (`none` = nil). -/
structure RestoreJob where
  id : String
  snapshotName : String
  sourceDataset : String
  targetDataset : String
  status : String
  progress : Nat
  error : Option String
  requiresConfirm : Bool
  safetyWarning : String
  forceConfirmed : Bool
deriving Repr, DecidableEq

/-- The job created by `RestoreSnapshotFromDataset` before the worker runs. -/
def newJob (id sourceDataset snapshotName targetDataset : String) : RestoreJob :=
  { id := id
    snapshotName := snapshotName
    sourceDataset := sourceDataset
    targetDataset := targetDataset
    status := "starting"
    progress := 0
    error := none
    requiresConfirm := false
    safetyWarning := ""
    forceConfirmed := false }

/-- External results a `performRestore` worker observes, in call order:
`localList` is what `zfsManager.ListSnapshots` returns during the
safety-check / preparing phase, `diffResult dataset snapshot` the outcome of
`zfs diff dataset@snapshot` (whether changes exist), `remoteList` the
snapshot names of the chosen source (via `GetSnapshotsForDataset` or
`ListRemoteSnapshots`), `restoreResult force` the transport restore outcome
in forced or safe mode, and `postList` the `ListSnapshots` result used by
`verifyRestore`. -/
structure RestoreEnv where
  localList : Except String (List Snapshot)
  diffResult : String → String → Except String Bool
  remoteList : Except String (List String)
  restoreResult : Bool → Option String
  postList : Except String (List Snapshot)

/-- Function `RestoreManager.failJob`: terminal failure state. -/
def failJob (job : RestoreJob) (msg : String) : RestoreJob :=
  { job with status := "failed", error := some msg }

/-- Function `RestoreManager.checkTargetDatasetExists`: list local snapshots
(assuming the dataset absent when the listing fails) and report whether any
snapshot belongs to `dataset`. The error component is always nil. -/
def checkTargetDatasetExists (localList : Except String (List Snapshot))
    (dataset : String) : Bool × Option String :=
  match localList with
  | .error _ => (false, none)
  | .ok snapshots => (snapshots.any (fun s => s.dataset = dataset), none)

/-- The loop in `checkForUncommittedData` selecting the snapshot of
`dataset` with the greatest creation time (strict `After` comparison). -/
def latestSnapshotFor (snapshots : List Snapshot) (dataset : String) : Option Snapshot :=
  snapshots.foldl
    (fun latest s =>
      if s.dataset = dataset then
        match latest with
        | none => some s
        | some l => if l.created < s.created then some s else some l
      else latest)
    none

/-- Function `RestoreManager.checkForUncommittedData`: list local snapshots,
find the latest snapshot of the target; no snapshot at all means
uncommitted data, otherwise ask `zfs diff` whether changes exist since it. -/
def checkForUncommittedData (env : RestoreEnv) (dataset : String) : Except String Bool :=
  match env.localList with
  | .error e => .error e
  | .ok snapshots =>
      match latestSnapshotFor snapshots dataset with
      | none => .ok true
      | some latest =>
          match env.diffResult dataset latest.name with
          | .error e =>
              .error ("failed to check for uncommitted data using zfs diff: " ++ e)
          | .ok hasChanges => .ok hasChanges

/-- Function `RestoreManager.datasetExists` (used by the `preparing` step):
it only runs `zfsManager.ListSnapshots()` — the `dataset` argument is never
consulted — and maps a listing failure to `(false, nil)` and success to
`(true, nil)`. -/
def datasetExists (localList : Except String (List Snapshot)) (dataset : String) :
    Bool × Option String :=
  match localList with
  | .error _ => (false, none)
  | .ok _ => (true, none)

/-- Function `RestoreManager.verifyRestore`: list local snapshots and look for
the restored `dataset@snapshotName` pair. -/
def verifyRestore (postList : Except String (List Snapshot))
    (dataset snapshotName : String) : Option String :=
  match postList with
  | .error e => some ("failed to list snapshots after restore: " ++ e)
  | .ok snapshots =>
      if snapshots.any (fun s => s.dataset = dataset ∧ s.name = snapshotName) then
        none
      else
        some "restored snapshot not found in target dataset"

/-- The safety warning text set when a destructive restore awaits
confirmation (contents abbreviated to its lead line). -/
def safetyWarningFor (targetDataset : String) : String :=
  "DESTRUCTIVE OPERATION WARNING: target dataset " ++ targetDataset ++
    " contains data that will be PERMANENTLY LOST."

/-- What a finished (or halted) `performRestore` worker left behind: the job
record and, when the transport restore was invoked, the mode it used
(`some true` = forced/destructive, `some false` = safe). -/
structure RestoreOutcome where
  job : RestoreJob
  restoreInvoked : Option Bool
deriving Repr, DecidableEq

/-- Steps 1–5 of `performRestore` (everything after the safety gate):
verify the snapshot exists on the source, note target existence, invoke the
transport restore in forced or safe mode, verify the result, complete. -/
def performRestoreAfterSafety (env : RestoreEnv) (job : RestoreJob) : RestoreOutcome :=
  -- Step 1: verify remote snapshot exists
  let job := { job with status := "verifying", progress := 10 }
  match env.remoteList with
  | .error e =>
      ⟨failJob job ("failed to list remote snapshots: " ++ e), none⟩
  | .ok remoteSnapshots =>
      if ¬ remoteSnapshots.contains job.snapshotName then
        ⟨failJob job ("snapshot " ++ job.snapshotName ++ " not found on remote server"), none⟩
      else
        -- Step 2: check whether the target dataset exists (informational)
        let job := { job with status := "preparing", progress := 20 }
        match (datasetExists env.localList job.targetDataset).2 with
        | some e => ⟨failJob job ("failed to check if dataset exists: " ++ e), none⟩
        | none =>
            -- Step 3: initiate restore from remote
            let job := { job with status := "restoring", progress := 30 }
            match env.restoreResult job.forceConfirmed with
            | some e => ⟨failJob job ("restore failed: " ++ e), some job.forceConfirmed⟩
            | none =>
                -- Step 4: verify restore completed
                let invoked := some job.forceConfirmed
                let job := { job with status := "verifying", progress := 90 }
                match verifyRestore env.postList job.targetDataset job.snapshotName with
                | some e => ⟨failJob job ("restore verification failed: " ++ e), invoked⟩
                | none =>
                    ⟨{ job with status := "completed", progress := 100 }, invoked⟩

/-- Function `RestoreManager.performRestore`: the safety check first — when
the target dataset is detected as existing and holding uncommitted data and
the job is not force-confirmed, halt in `awaiting_confirmation`; otherwise
run the remaining steps. -/
def performRestore (env : RestoreEnv) (job : RestoreJob) : RestoreOutcome :=
  let job := { job with status := "safety_check", progress := 5 }
  let existsCheck := checkTargetDatasetExists env.localList job.targetDataset
  match existsCheck.2 with
  | some e => ⟨failJob job ("failed to check target dataset: " ++ e), none⟩
  | none =>
      if existsCheck.1 then
        match checkForUncommittedData env job.targetDataset with
        | .error e => ⟨failJob job ("failed to check for uncommitted data: " ++ e), none⟩
        | .ok hasUncommittedData =>
            if hasUncommittedData ∧ ¬ job.forceConfirmed then
              ⟨{ job with
                  requiresConfirm := true
                  status := "awaiting_confirmation"
                  safetyWarning := safetyWarningFor job.targetDataset }, none⟩
            else
              performRestoreAfterSafety env job
      else
        performRestoreAfterSafety env job

/-- Timing data of one tracked restore job: when it was created
(`StartRestoreFromDatasetWithTracking`) and when, if ever, it entered a
terminal status (`completed` or `failed`), in seconds. -/
structure JobTimeline where
  startTime : Nat
  terminalTime : Option Nat
deriving Repr, DecidableEq

/-- The cleanup delay of the tracking goroutine (`time.Sleep(1 * time.Hour)`). -/
def retentionSeconds : Nat := 3600

/-- Whether the job's status is `completed` or `failed` at instant `t`. -/
def isTerminalAt (j : JobTimeline) (t : Nat) : Bool :=
  match j.terminalTime with
  | some τ => τ ≤ t
  | none => false

/-- The cleanup goroutine started by `StartRestoreFromDatasetWithTracking`
sleeps one hour from job creation and then deletes the job from
`activeJobs` exactly when its status is terminal at that single instant. -/
def evictedAt (j : JobTimeline) (t : Nat) : Bool :=
  isTerminalAt j (j.startTime + retentionSeconds) ∧ j.startTime + retentionSeconds ≤ t

/-- Whether `GetJob` still returns the tracked job at instant `t`. -/
def getJobReturns (j : JobTimeline) (t : Nat) : Bool :=
  ¬ evictedAt j t

end Restore

/-- Environment for the C7 witness: the remote is empty so each retry plans
a full send; executing the full send of `a` succeeds and of `b` fails. -/
def drainWitnessEnv : Sched.SendEnv where
  remoteList := .ok []
  localList := .ok []
  execPlan := fun plan =>
    match plan with
    | .full "a" => none
    | _ => some "transport failure"

/-- Environment for the C6 witness: every send execution fails, so the
drained entry stays queued and the new snapshot is appended. -/
def nodupWitnessEnv : Sched.SendEnv where
  remoteList := .ok []
  localList := .ok []
  execPlan := fun _ => some "transport failure"

/-- Thirty-one snapshots created at times 0..30, oldest first. -/
def pruneWitnessList : List Zfs.Snapshot :=
  (List.range 31).map (fun i => ⟨"s" ++ toString i, i, "-", "-", "tank/data"⟩)

/-- The C1 failing input: the local snapshot listing holds a snapshot of
`tank/other` only — the real target `tank/target` exists on the host but
has no snapshot of its own, so it appears nowhere in the listing. The
requested snapshot exists on the remote and the transfer succeeds. -/
def restoreBugEnv : Restore.RestoreEnv where
  localList := .ok [⟨"snapA", 5, "-", "-", "tank/other"⟩]
  diffResult := fun _ _ => .ok false
  remoteList := .ok ["snapA"]
  restoreResult := fun _ => none
  postList := .ok [⟨"snapA", 6, "-", "-", "tank/target"⟩]

/-- The C1 failing job: restore `snapA` from the default remote dataset
into `tank/target`, not force-confirmed. -/
def restoreBugJob : Restore.RestoreJob :=
  Restore.newJob "restore_1" "" "snapA" "tank/target"

namespace Sched

open Zfs

theorem inner_foldl (locals : List Snapshot) (r acc : String) :
    locals.foldl (fun a s => if s.name = r then r else a) acc
      = if locals.any (fun s => s.name = r) then r else acc := by
  induction locals generalizing acc with
  | nil => rfl
  | cons l ls ih =>
      simp only [List.foldl_cons, List.any_cons]
      by_cases h : l.name = r
      · simp [h, ih]
      · simp [h, ih]

theorem lastCommon_foldl_all (remote : List String) (locals : List Snapshot) (acc : String)
    (hne : remote ≠ [])
    (hmatch : ∀ r ∈ remote, locals.any (fun s => s.name = r) = true) :
    remote.foldl
        (fun lastCommon r => locals.foldl (fun a s => if s.name = r then r else a) lastCommon)
        acc
      = remote.getLast hne := by
  induction remote generalizing acc with
  | nil => exact absurd rfl hne
  | cons r rest ih =>
      simp only [List.foldl_cons]
      rw [inner_foldl, if_pos (hmatch r (List.mem_cons_self r rest))]
      cases rest with
      | nil => rfl
      | cons r2 rest2 =>
          rw [ih r (by simp) (fun x hx => hmatch x (List.mem_cons_of_mem _ hx))]
          exact (List.getLast_cons (by simp)).symm

theorem lastCommon_foldl_none (remote : List String) (locals : List Snapshot) (acc : String)
    (hmatch : ∀ r ∈ remote, locals.any (fun s => s.name = r) = false) :
    remote.foldl
        (fun lastCommon r => locals.foldl (fun a s => if s.name = r then r else a) lastCommon)
        acc
      = acc := by
  induction remote generalizing acc with
  | nil => rfl
  | cons r rest ih =>
      simp only [List.foldl_cons]
      rw [inner_foldl, if_neg (by simp [hmatch r (List.mem_cons_self r rest)])]
      exact ih acc (fun x hx => hmatch x (List.mem_cons_of_mem _ hx))

theorem pairwise_le_getLast {α : Type} (f : α → Nat) :
    ∀ (l : List α) (hne : l ≠ []), l.Pairwise (fun a b => f a ≤ f b) →
      ∀ x ∈ l, f x ≤ f (l.getLast hne)
  | [], hne, _, _, hx => absurd rfl hne
  | [a], _, _, x, hx => by
      simp only [List.mem_singleton] at hx
      subst hx
      rfl
  | a :: b :: l, hne, hp, x, hx => by
      rw [List.getLast_cons (by simp)]
      rcases List.mem_cons.mp hx with hxa | hxbl
      · subst hxa
        exact (List.pairwise_cons.mp hp).1 _ (List.getLast_mem (by simp))
      · exact pairwise_le_getLast f (b :: l) (by simp) (List.pairwise_cons.mp hp).2 x hxbl

end Sched

/-- C3: if enumerating the remote snapshot names fails, `sendSnapshot`
hands no plan (full or incremental) to the transport and returns the
"aborting sync" error — the run never degrades to a full send. -/
theorem remote_enumeration_failure_aborts (env : Sched.SendEnv) (e snapshotName : String)
    (henv : env.remoteList = .error e) :
    (Sched.trySendSnapshot env snapshotName).2 = []
    ∧ (Sched.trySendSnapshot env snapshotName).1
        = some ("failed to list remote snapshots, aborting sync to prevent data loss: " ++ e)
    ∧ ∀ localList, Sched.sendSnapshotPlan (.error e) localList snapshotName
        = .error ("failed to list remote snapshots, aborting sync to prevent data loss: " ++ e) := by
  refine ⟨?_, ?_, fun localList => rfl⟩ <;>
    simp [Sched.trySendSnapshot, Sched.sendSnapshotPlan, henv]

/-- Witness for C3 at a concrete environment. -/
theorem remote_enumeration_failure_aborts_witness :
    ({ remoteList := .error "connection refused", localList := .ok [],
       execPlan := fun _ => none } : Sched.SendEnv).remoteList = .error "connection refused"
    ∧ (Sched.trySendSnapshot
        { remoteList := .error "connection refused", localList := .ok [],
          execPlan := fun _ => none } "autosnap_2024-01-01_00-00-00").2 = []
    ∧ (Sched.trySendSnapshot
        { remoteList := .error "connection refused", localList := .ok [],
          execPlan := fun _ => none } "autosnap_2024-01-01_00-00-00").1
        = some ("failed to list remote snapshots, aborting sync to prevent data loss: "
            ++ "connection refused")
    ∧ ∀ localList, Sched.sendSnapshotPlan (.error "connection refused") localList
          "autosnap_2024-01-01_00-00-00"
        = .error ("failed to list remote snapshots, aborting sync to prevent data loss: "
            ++ "connection refused") := by
  have h := remote_enumeration_failure_aborts
    { remoteList := .error "connection refused", localList := .ok [], execPlan := fun _ => none }
    "connection refused" "autosnap_2024-01-01_00-00-00" rfl
  exact ⟨rfl, h.1, h.2.1, h.2.2⟩

/-- C4 counterexample: with local snapshots `a` (created 1) and `b`
(created 2) and the remote enumeration returning `["b", "a"]`, both names
are common and `b` is the most recently created common snapshot, yet the
computed plan is incremental from `a`: the code takes the last matching
name in remote enumeration order, not the most recently created common
snapshot. -/
theorem incremental_base_counterexample :
    Sched.sendSnapshotPlan
        (.ok ["b", "a"])
        (.ok [⟨"a", 1, "-", "-", "tank/data"⟩, ⟨"b", 2, "-", "-", "tank/data"⟩])
        "c"
      = .ok (.incremental "a" "c")
    ∧ "b" ∈ ["b", "a"]
    ∧ "b" ∈ ([⟨"a", 1, "-", "-", "tank/data"⟩,
              ⟨"b", 2, "-", "-", "tank/data"⟩] : List Zfs.Snapshot).map Zfs.Snapshot.name
    ∧ Sched.localCreated
          [⟨"a", 1, "-", "-", "tank/data"⟩, ⟨"b", 2, "-", "-", "tank/data"⟩] "a"
        < Sched.localCreated
          [⟨"a", 1, "-", "-", "tank/data"⟩, ⟨"b", 2, "-", "-", "tank/data"⟩] "b" := by
  refine ⟨rfl, by decide, by decide, by decide⟩

/-- C4 amended: when every remote name (all non-empty) matches a local
snapshot name and the remote enumeration order is non-decreasing in local
creation time — as it is when the remote list is a creation-ordered subset
of the local sequence — the plan is an incremental send based at the last
remote name, which is then a common snapshot of maximal creation time; in
particular, for a creation-ordered remote subset with latest element `sk`
the plan is incremental from `sk` to the new snapshot. -/
theorem incremental_base_amended (locals : List Zfs.Snapshot) (remote : List String)
    (newName : String) (hne : remote ≠ [])
    (hmem : ∀ r ∈ remote, r ∈ locals.map Zfs.Snapshot.name)
    (hnonempty : ∀ r ∈ remote, r ≠ "")
    (hmono : remote.Pairwise
      (fun a b => Sched.localCreated locals a ≤ Sched.localCreated locals b)) :
    Sched.sendSnapshotPlan (.ok remote) (.ok locals) newName
      = .ok (.incremental (remote.getLast hne) newName)
    ∧ remote.getLast hne ∈ remote
    ∧ ∀ r ∈ remote,
        Sched.localCreated locals r ≤ Sched.localCreated locals (remote.getLast hne) := by
  have hmatch : ∀ r ∈ remote, locals.any (fun s => s.name = r) = true := by
    intro r hr
    rcases List.mem_map.mp (hmem r hr) with ⟨s, hs, hname⟩
    exact List.any_eq_true.mpr ⟨s, hs, decide_eq_true hname⟩
  have hlast : Sched.lastCommonSnapshot remote locals = remote.getLast hne :=
    Sched.lastCommon_foldl_all remote locals "" hne hmatch
  have hmemlast : remote.getLast hne ∈ remote := List.getLast_mem hne
  have h0 : ¬ remote.length = 0 := by simpa [List.length_eq_zero] using hne
  refine ⟨?_, hmemlast, fun r hr => Sched.pairwise_le_getLast _ remote hne hmono r hr⟩
  show (if remote.length = 0 then Except.ok (Sched.SendPlan.full newName)
    else
      let lastCommon := Sched.lastCommonSnapshot remote locals
      if lastCommon = "" then Except.ok (Sched.SendPlan.full newName)
      else Except.ok (Sched.SendPlan.incremental lastCommon newName))
    = Except.ok (Sched.SendPlan.incremental (remote.getLast hne) newName)
  rw [if_neg h0]
  simp only [hlast]
  rw [if_neg (hnonempty _ hmemlast)]

/-- C4 amended witness: local snapshots `s1, s2, s3` created at 1, 2, 3 and
remote subset `[s1, s2]` yield an incremental plan based at `s2`. -/
theorem incremental_base_amended_witness :
    (["s1", "s2"] : List String) ≠ []
    ∧ (∀ r ∈ ["s1", "s2"], r ∈ ([⟨"s1", 1, "-", "-", "tank/data"⟩,
        ⟨"s2", 2, "-", "-", "tank/data"⟩,
        ⟨"s3", 3, "-", "-", "tank/data"⟩] : List Zfs.Snapshot).map Zfs.Snapshot.name)
    ∧ (∀ r ∈ ["s1", "s2"], r ≠ "")
    ∧ (["s1", "s2"] : List String).Pairwise
        (fun a b => Sched.localCreated [⟨"s1", 1, "-", "-", "tank/data"⟩,
            ⟨"s2", 2, "-", "-", "tank/data"⟩, ⟨"s3", 3, "-", "-", "tank/data"⟩] a
          ≤ Sched.localCreated [⟨"s1", 1, "-", "-", "tank/data"⟩,
            ⟨"s2", 2, "-", "-", "tank/data"⟩, ⟨"s3", 3, "-", "-", "tank/data"⟩] b)
    ∧ Sched.sendSnapshotPlan (.ok ["s1", "s2"])
        (.ok [⟨"s1", 1, "-", "-", "tank/data"⟩, ⟨"s2", 2, "-", "-", "tank/data"⟩,
          ⟨"s3", 3, "-", "-", "tank/data"⟩]) "s4"
      = .ok (.incremental "s2" "s4") := by
  refine ⟨by decide, by decide, by decide, by decide, ?_⟩
  exact (incremental_base_amended
    [⟨"s1", 1, "-", "-", "tank/data"⟩, ⟨"s2", 2, "-", "-", "tank/data"⟩,
      ⟨"s3", 3, "-", "-", "tank/data"⟩]
    ["s1", "s2"] "s4" (by decide) (by decide) (by decide) (by decide)).1

/-- C5: when the remote enumeration succeeds but is empty, or no remote
name equals any local snapshot name, the plan is a full send of the new
snapshot — never incremental. -/
theorem full_send_fallback (remote : List String) (locals : List Zfs.Snapshot)
    (newName : String)
    (h : remote = [] ∨ ∀ r ∈ remote, r ∉ locals.map Zfs.Snapshot.name) :
    Sched.sendSnapshotPlan (.ok remote) (.ok locals) newName
      = .ok (.full newName) := by
  rcases h with h | h
  · subst h; rfl
  · by_cases h0 : remote.length = 0
    · show (if remote.length = 0 then Except.ok (Sched.SendPlan.full newName) else _)
        = Except.ok (Sched.SendPlan.full newName)
      rw [if_pos h0]
    · have hmatch : ∀ r ∈ remote, locals.any (fun s => s.name = r) = false := by
        intro r hr
        rw [Bool.eq_false_iff]
        intro hany
        rcases List.any_eq_true.mp hany with ⟨s, hs, hp⟩
        exact h r hr (List.mem_map.mpr ⟨s, hs, of_decide_eq_true hp⟩)
      have hlast : Sched.lastCommonSnapshot remote locals = "" :=
        Sched.lastCommon_foldl_none remote locals "" hmatch
      show (if remote.length = 0 then Except.ok (Sched.SendPlan.full newName)
        else
          let lastCommon := Sched.lastCommonSnapshot remote locals
          if lastCommon = "" then Except.ok (Sched.SendPlan.full newName)
          else Except.ok (Sched.SendPlan.incremental lastCommon newName))
        = Except.ok (Sched.SendPlan.full newName)
      rw [if_neg h0]
      simp [hlast]

/-- C5 witness: an empty remote list and a disjoint remote list both yield
a full-send plan at concrete inputs. -/
theorem full_send_fallback_witness :
    ((["x"] : List String) = []
      ∨ ∀ r ∈ (["x"] : List String),
          r ∉ ([⟨"a", 1, "-", "-", "tank/data"⟩] : List Zfs.Snapshot).map Zfs.Snapshot.name)
    ∧ Sched.sendSnapshotPlan (.ok ["x"]) (.ok [⟨"a", 1, "-", "-", "tank/data"⟩]) "n"
        = .ok (.full "n")
    ∧ Sched.sendSnapshotPlan (.ok ([] : List String))
        (.ok [⟨"a", 1, "-", "-", "tank/data"⟩]) "n" = .ok (.full "n") := by
  refine ⟨Or.inr (by decide), ?_, ?_⟩
  · exact full_send_fallback ["x"] [⟨"a", 1, "-", "-", "tank/data"⟩] "n" (Or.inr (by decide))
  · exact full_send_fallback [] [⟨"a", 1, "-", "-", "tank/data"⟩] "n" (Or.inl rfl)

/-- C2 counterexample: a scheduled replication run that enters
`performSnapshot` while a send is in flight does not return the
"operation already in progress" outcome — it blocks on the mutex
(`sendMutex.Lock()`) and waits, eventually running a second send. -/
theorem single_flight_counterexample :
    Sched.performSnapshotEntry true = .blockedWait
    ∧ Sched.performSnapshotEntry true
        ≠ .busyError "snapshot operation already in progress" := by
  decide

/-- C2 amended: while a send is in flight, an on-demand `TriggerSnapshot`
fails fast with "snapshot operation already in progress" and starts no
second send, but the scheduled entry points (`performSnapshot`,
`performRetry`) and the explicit `RetryPendingSends` block on the mutex and
wait instead of returning the busy outcome; sends remain serialized by the
mutex. -/
theorem single_flight_amended :
    Sched.triggerSnapshotEntry true = .busyError "snapshot operation already in progress"
    ∧ Sched.triggerSnapshotEntry false = .proceed
    ∧ Sched.performSnapshotEntry true = .blockedWait
    ∧ Sched.performSnapshotEntry false = .proceed
    ∧ Sched.performRetryEntry true = .blockedWait
    ∧ Sched.retryPendingSendsEntry true = .blockedWait := by
  decide

theorem retry_foldl_spec (env : Sched.SendEnv) (dataset : String) :
    ∀ (q accS : List String) (accN : List Sched.Notification),
      q.foldl
        (fun (acc : List String × List Sched.Notification) (snapshotName : String) =>
          if Sched.sendOk env snapshotName then
            (acc.1, acc.2 ++ [Sched.Notification.syncSuccess snapshotName dataset 0])
          else (acc.1 ++ [snapshotName], acc.2))
        (accS, accN)
      = (accS ++ q.filter (fun n => !(Sched.sendOk env n)),
         accN ++ (q.filter (fun n => Sched.sendOk env n)).map
           (fun n => Sched.Notification.syncSuccess n dataset 0)) := by
  intro q
  induction q with
  | nil => intro accS accN; simp
  | cons n rest ih =>
      intro accS accN
      by_cases h : Sched.sendOk env n
      · simp [List.foldl_cons, h, ih, List.filter_cons]
      · simp [List.foldl_cons, h, ih, List.filter_cons]

theorem retry_drain_eq (env : Sched.SendEnv) (dataset : String) (pending : List String) :
    Sched.retryPendingSendsUnsafe env dataset pending
      = (pending.filter (fun n => !(Sched.sendOk env n)),
         (pending.filter (fun n => Sched.sendOk env n)).map
           (fun n => Sched.Notification.syncSuccess n dataset 0),
         if (pending.filter (fun n => !(Sched.sendOk env n))).length > 0
         then some (Sched.stillFailedMsg
            (pending.filter (fun n => !(Sched.sendOk env n))).length)
         else none) := by
  unfold Sched.retryPendingSendsUnsafe
  by_cases hq : pending.isEmpty
  · rw [if_pos hq]
    rw [List.isEmpty_iff] at hq
    subst hq
    rfl
  · rw [if_neg hq]
    simp only [retry_foldl_spec env dataset pending [] []]
    simp

/-- C7: the drain of a non-empty pending queue retries each entry with
`sendSnapshot` (the full/incremental plan recomputed fresh against the
current remote and local state), keeps exactly the entries whose retry
failed, emits one zero-duration success notification per removed entry (in
queue order), and returns an aggregate error naming how many entries remain
pending, or nil when none do. -/
theorem retry_drain_spec (env : Sched.SendEnv) (dataset : String) (pending : List String)
    (hne : pending ≠ []) :
    (Sched.retryPendingSendsUnsafe env dataset pending).1
        = pending.filter (fun n => !(Sched.sendOk env n))
    ∧ (Sched.retryPendingSendsUnsafe env dataset pending).2.1
        = (pending.filter (fun n => Sched.sendOk env n)).map
            (fun n => Sched.Notification.syncSuccess n dataset 0)
    ∧ (Sched.retryPendingSendsUnsafe env dataset pending).2.2
        = (if (pending.filter (fun n => !(Sched.sendOk env n))).length > 0
           then some (Sched.stillFailedMsg
              (pending.filter (fun n => !(Sched.sendOk env n))).length)
           else none)
    ∧ ((Sched.retryPendingSendsUnsafe env dataset pending).2.2 = none
        ↔ (Sched.retryPendingSendsUnsafe env dataset pending).1 = []) := by
  rw [retry_drain_eq env dataset pending]
  refine ⟨rfl, rfl, rfl, ?_⟩
  by_cases h : (pending.filter (fun n => !(Sched.sendOk env n))).length > 0
  · rw [if_pos h]
    simp only [reduceCtorEq, false_iff]
    intro hnil
    rw [hnil] at h
    exact absurd h (by simp)
  · rw [if_neg h]
    simp only [true_iff]
    exact List.length_eq_zero.mp (Nat.eq_zero_of_not_pos h)

/-- C7 witness at a concrete queue: entry `a` succeeds and is removed with
a zero-duration success notification, entry `b` fails and is kept, and the
aggregate error reports one remaining entry. -/
theorem retry_drain_spec_witness :
    (["a", "b"] : List String) ≠ []
    ∧ (Sched.retryPendingSendsUnsafe drainWitnessEnv "tank/data" ["a", "b"]).1 = ["b"]
    ∧ (Sched.retryPendingSendsUnsafe drainWitnessEnv "tank/data" ["a", "b"]).2.1
        = [Sched.Notification.syncSuccess "a" "tank/data" 0]
    ∧ (Sched.retryPendingSendsUnsafe drainWitnessEnv "tank/data" ["a", "b"]).2.2
        = some (Sched.stillFailedMsg 1) := by
  have h := retry_drain_spec drainWitnessEnv "tank/data" ["a", "b"] (by decide)
  refine ⟨by decide, ?_, ?_, ?_⟩
  · rw [h.1]; rfl
  · rw [h.2.1]; rfl
  · rw [h.2.2.1]; rfl

theorem performSnapshot_pending (drainEnv sendEnv : Sched.SendEnv) (createErr : Option String)
    (cleanupList : Except String (List Zfs.Snapshot)) (destroyOk : String → Bool)
    (dataset timestamp : String) (duration : Nat) (pending : List String) :
    (Sched.performSnapshot drainEnv sendEnv createErr cleanupList destroyOk
        dataset timestamp duration pending).pendingSends
      = (if pending.length > 0
          then (Sched.retryPendingSendsUnsafe drainEnv dataset pending).1
          else pending)
        ++ (if createErr = none
              ∧ (Sched.trySendSnapshot sendEnv ("autosnap_" ++ timestamp)).1 ≠ none
            then ["autosnap_" ++ timestamp] else []) := by
  unfold Sched.performSnapshot
  cases createErr with
  | some e =>
      simp
      split <;> rfl
  | none =>
      cases h : (Sched.trySendSnapshot sendEnv ("autosnap_" ++ timestamp)).1 with
      | some e =>
          simp [h]
          split <;> rfl
      | none =>
          simp [h]
          split <;> rfl

/-- C6: the pending-send queue never acquires a duplicate snapshot name:
the drain only keeps (never re-appends) existing entries, and a
replication run appends its (fresh, timestamp-named) snapshot at most once
after draining — so from a duplicate-free queue with a fresh new name both
operations leave the queue duplicate-free. -/
theorem pending_queue_nodup (drainEnv sendEnv : Sched.SendEnv) (createErr : Option String)
    (cleanupList : Except String (List Zfs.Snapshot)) (destroyOk : String → Bool)
    (dataset timestamp : String) (duration : Nat) (pending : List String)
    (hnodup : pending.Nodup) (hfresh : ("autosnap_" ++ timestamp) ∉ pending) :
    (Sched.retryPendingSendsUnsafe drainEnv dataset pending).1.Nodup
    ∧ (Sched.performSnapshot drainEnv sendEnv createErr cleanupList destroyOk
        dataset timestamp duration pending).pendingSends.Nodup := by
  have hdrain : (Sched.retryPendingSendsUnsafe drainEnv dataset pending).1
      = pending.filter (fun n => !(Sched.sendOk drainEnv n)) := by
    rw [retry_drain_eq]
  have hnd : (Sched.retryPendingSendsUnsafe drainEnv dataset pending).1.Nodup := by
    rw [hdrain]; exact hnodup.filter _
  refine ⟨hnd, ?_⟩
  rw [performSnapshot_pending]
  by_cases happend : createErr = none
      ∧ (Sched.trySendSnapshot sendEnv ("autosnap_" ++ timestamp)).1 ≠ none
  · rw [if_pos happend]
    by_cases hlen : pending.length > 0
    · rw [if_pos hlen]
      refine List.Nodup.append hnd (by simp) ?_
      intro x hx hx1
      rw [hdrain] at hx
      have hxp : x ∈ pending := List.mem_of_mem_filter hx
      rw [List.mem_singleton] at hx1
      subst hx1
      exact hfresh hxp
    · rw [if_neg hlen]
      refine List.Nodup.append hnodup (by simp) ?_
      intro x hx hx1
      rw [List.mem_singleton] at hx1
      subst hx1
      exact hfresh hx
  · rw [if_neg happend]
    by_cases hlen : pending.length > 0
    · rw [if_pos hlen]; simpa using hnd
    · rw [if_neg hlen]; simpa using hnodup

/-- C6 witness: a concrete run that drains a one-entry queue (the retry
fails and the entry is kept) and then fails to send its fresh snapshot
still leaves a duplicate-free queue. -/
theorem pending_queue_nodup_witness :
    (["autosnap_2024-01-01_00-00-00"] : List String).Nodup
    ∧ ("autosnap_" ++ "2024-01-02_00-00-00")
        ∉ (["autosnap_2024-01-01_00-00-00"] : List String)
    ∧ (Sched.retryPendingSendsUnsafe nodupWitnessEnv "tank/data"
        ["autosnap_2024-01-01_00-00-00"]).1.Nodup
    ∧ (Sched.performSnapshot nodupWitnessEnv nodupWitnessEnv none (.ok [])
        (fun _ => true) "tank/data" "2024-01-02_00-00-00" 7
        ["autosnap_2024-01-01_00-00-00"]).pendingSends.Nodup := by
  have h := pending_queue_nodup nodupWitnessEnv nodupWitnessEnv none (.ok [])
    (fun _ => true) "tank/data" "2024-01-02_00-00-00" 7
    ["autosnap_2024-01-01_00-00-00"] (by decide) (by decide)
  exact ⟨by decide, by decide, h.1, h.2⟩

theorem performSnapshot_cleanup_independent (drainEnv sendEnv : Sched.SendEnv)
    (createErr : Option String) (cl₁ cl₂ : Except String (List Zfs.Snapshot))
    (d₁ d₂ : String → Bool) (dataset timestamp : String) (duration : Nat)
    (pending : List String) :
    (Sched.performSnapshot drainEnv sendEnv createErr cl₁ d₁
        dataset timestamp duration pending).pendingSends
      = (Sched.performSnapshot drainEnv sendEnv createErr cl₂ d₂
        dataset timestamp duration pending).pendingSends
    ∧ (Sched.performSnapshot drainEnv sendEnv createErr cl₁ d₁
        dataset timestamp duration pending).notifications
      = (Sched.performSnapshot drainEnv sendEnv createErr cl₂ d₂
        dataset timestamp duration pending).notifications := by
  unfold Sched.performSnapshot
  cases createErr with
  | some e => exact ⟨rfl, rfl⟩
  | none =>
      cases h : (Sched.trySendSnapshot sendEnv ("autosnap_" ++ timestamp)).1 with
      | some e => simp [h]
      | none => simp [h]

theorem cleanup_ok (snapshots : List Zfs.Snapshot) (destroyOk : String → Bool) :
    Sched.cleanupOldSnapshots (.ok snapshots) destroyOk
      = if snapshots.length ≤ 30 then (none, [], [])
        else (none, (snapshots.take (snapshots.length - 30)).map Zfs.Snapshot.name,
          ((snapshots.take (snapshots.length - 30)).filter
            (fun s => ¬ destroyOk s.name)).map Zfs.Snapshot.name) := by
  rfl

theorem filter_append_split (t d : List Zfs.Snapshot) (A : List String)
    (destroyOk : String → Bool)
    (ht : ∀ s ∈ t, s.name ∈ A ∧ destroyOk s.name = true)
    (hd : ∀ s ∈ d, s.name ∉ A) :
    (t ++ d).filter (fun s => ¬ (s.name ∈ A ∧ destroyOk s.name)) = d := by
  rw [List.filter_append]
  have h1 : t.filter (fun s => ¬ (s.name ∈ A ∧ destroyOk s.name)) = [] := by
    refine List.filter_eq_nil_iff.mpr ?_
    intro s hs
    have h := ht s hs
    simp [h.1, h.2]
  have h2 : d.filter (fun s => ¬ (s.name ∈ A ∧ destroyOk s.name)) = d := by
    refine List.filter_eq_self.mpr ?_
    intro s hs
    simp [hd s hs]
  rw [h1, h2, List.nil_append]

/-- C8: with the local snapshot list in creation-ascending order (as
`zfs list -s creation` returns it) and dataset-unique names, pruning after
a successful send attempts to destroy exactly the oldest
`length − 30` snapshots; when those destroys succeed, exactly the 30 most
recently created snapshots remain (every deleted snapshot is no younger
than every retained one); `cleanupOldSnapshots` itself never returns an
error over a listed snapshot set, and neither the pending queue nor the
notifications of a replication run depend on the prune outcome. -/
theorem prune_retention (snapshots : List Zfs.Snapshot) (destroyOk : String → Bool)
    (hsorted : snapshots.Pairwise (fun a b => a.created ≤ b.created))
    (hnames : (snapshots.map Zfs.Snapshot.name).Nodup) :
    (Sched.cleanupOldSnapshots (.ok snapshots) destroyOk).1 = none
    ∧ (snapshots.length ≤ 30 →
        (Sched.cleanupOldSnapshots (.ok snapshots) destroyOk).2.1 = []
        ∧ Sched.remainingAfterCleanup snapshots destroyOk = snapshots)
    ∧ (snapshots.length > 30 →
        (Sched.cleanupOldSnapshots (.ok snapshots) destroyOk).2.1
          = (snapshots.take (snapshots.length - 30)).map Zfs.Snapshot.name
        ∧ ((∀ s ∈ snapshots.take (snapshots.length - 30), destroyOk s.name = true) →
            Sched.remainingAfterCleanup snapshots destroyOk
              = snapshots.drop (snapshots.length - 30)
            ∧ (Sched.remainingAfterCleanup snapshots destroyOk).length = 30
            ∧ ∀ d ∈ snapshots.take (snapshots.length - 30),
                ∀ r ∈ Sched.remainingAfterCleanup snapshots destroyOk,
                  d.created ≤ r.created))
    ∧ (∀ (drainEnv sendEnv : Sched.SendEnv) (createErr : Option String)
          (cl : Except String (List Zfs.Snapshot)) (dOk : String → Bool)
          (dataset timestamp : String) (duration : Nat) (pending : List String),
        (Sched.performSnapshot drainEnv sendEnv createErr cl dOk
            dataset timestamp duration pending).pendingSends
          = (Sched.performSnapshot drainEnv sendEnv createErr (.ok snapshots) destroyOk
            dataset timestamp duration pending).pendingSends
        ∧ (Sched.performSnapshot drainEnv sendEnv createErr cl dOk
            dataset timestamp duration pending).notifications
          = (Sched.performSnapshot drainEnv sendEnv createErr (.ok snapshots) destroyOk
            dataset timestamp duration pending).notifications) := by
  refine ⟨?_, ?_, ?_, ?_⟩
  · rw [cleanup_ok]
    by_cases h : snapshots.length ≤ 30
    · rw [if_pos h]
    · rw [if_neg h]
  · intro hle
    have hcl : Sched.cleanupOldSnapshots (.ok snapshots) destroyOk = (none, [], []) := by
      rw [cleanup_ok, if_pos hle]
    refine ⟨by rw [hcl], ?_⟩
    unfold Sched.remainingAfterCleanup
    rw [hcl]
    simp
  · intro hgt
    have hnle : ¬ snapshots.length ≤ 30 := Nat.not_le.mpr hgt
    have hcl : Sched.cleanupOldSnapshots (.ok snapshots) destroyOk
        = (none, (snapshots.take (snapshots.length - 30)).map Zfs.Snapshot.name,
            ((snapshots.take (snapshots.length - 30)).filter
              (fun s => ¬ destroyOk s.name)).map Zfs.Snapshot.name) := by
      rw [cleanup_ok, if_neg hnle]
    refine ⟨by rw [hcl], ?_⟩
    intro hall
    have hsplit := List.take_append_drop (snapshots.length - 30) snapshots
    have hrem : Sched.remainingAfterCleanup snapshots destroyOk
        = snapshots.drop (snapshots.length - 30) := by
      unfold Sched.remainingAfterCleanup
      rw [hcl]
      have hgen := filter_append_split (snapshots.take (snapshots.length - 30))
        (snapshots.drop (snapshots.length - 30))
        ((snapshots.take (snapshots.length - 30)).map Zfs.Snapshot.name) destroyOk
        (fun s hs => ⟨List.mem_map.mpr ⟨s, hs, rfl⟩, hall s hs⟩)
        (fun s hs hmem => by
          have hdisj : List.Disjoint
              ((snapshots.take (snapshots.length - 30)).map Zfs.Snapshot.name)
              ((snapshots.drop (snapshots.length - 30)).map Zfs.Snapshot.name) := by
            refine List.disjoint_of_nodup_append ?_
            rw [← List.map_append, hsplit]
            exact hnames
          exact hdisj hmem (List.mem_map.mpr ⟨s, hs, rfl⟩))
      rw [hsplit] at hgen
      exact hgen
    refine ⟨hrem, ?_, ?_⟩
    · rw [hrem, List.length_drop, Nat.sub_sub_self (Nat.le_of_lt hgt)]
    · intro d hd r hr
      rw [hrem] at hr
      have hp : (snapshots.take (snapshots.length - 30)
          ++ snapshots.drop (snapshots.length - 30)).Pairwise
          (fun a b => a.created ≤ b.created) := by
        rw [hsplit]; exact hsorted
      exact (List.pairwise_append.mp hp).2.2 d hd r hr
  · intro drainEnv sendEnv createErr cl dOk dataset timestamp duration pending
    exact performSnapshot_cleanup_independent drainEnv sendEnv createErr cl (.ok snapshots)
      dOk destroyOk dataset timestamp duration pending

/-- C8 witness: on 31 creation-ordered snapshots with all destroys
succeeding, exactly the oldest one is destroyed and the 30 most recent
remain. -/
theorem prune_retention_witness :
    pruneWitnessList.Pairwise (fun a b => a.created ≤ b.created)
    ∧ (pruneWitnessList.map Zfs.Snapshot.name).Nodup
    ∧ (Sched.cleanupOldSnapshots (.ok pruneWitnessList) (fun _ => true)).1 = none
    ∧ (Sched.cleanupOldSnapshots (.ok pruneWitnessList) (fun _ => true)).2.1 = ["s0"]
    ∧ Sched.remainingAfterCleanup pruneWitnessList (fun _ => true) = pruneWitnessList.drop 1
    ∧ (Sched.remainingAfterCleanup pruneWitnessList (fun _ => true)).length = 30 := by
  have h := prune_retention pruneWitnessList (fun _ => true) (by decide) (by decide)
  have hc := h.2.2.1 (by decide)
  have hd := hc.2 (fun s _ => rfl)
  refine ⟨by decide, by decide, h.1, ?_, ?_, hd.2.1⟩
  · rw [hc.1]; rfl
  · rw [hd.1]; rfl

/-- C10: the target-existence check used by the `preparing` step ignores
its dataset argument entirely: its result is identical for any two dataset
names, it returns `(true, nil)` exactly when the local snapshot listing
succeeds and `(false, nil)` exactly when it fails, and its error component
is always nil — so this step never inspects the requested target dataset. -/
theorem datasetExists_ignores_argument (localList : Except String (List Zfs.Snapshot))
    (d d' : String) :
    Restore.datasetExists localList d = Restore.datasetExists localList d'
    ∧ (Restore.datasetExists localList d).2 = none
    ∧ ((Restore.datasetExists localList d).1 = true ↔ ∃ l, localList = .ok l)
    ∧ ((Restore.datasetExists localList d).1 = false ↔ ∃ e, localList = .error e) := by
  cases localList with
  | error e =>
      exact ⟨rfl, rfl, by simp [Restore.datasetExists], by simp [Restore.datasetExists]⟩
  | ok l =>
      exact ⟨rfl, rfl, by simp [Restore.datasetExists], by simp [Restore.datasetExists]⟩

/-- C1 (code bug): with the target dataset existing but snapshotless, the
safety gate never fires — `checkTargetDatasetExists` detects existence only
through snapshots of the target, so it reports `false` and the job runs
straight through to `completed`, invoking the transport restore in safe
mode, never entering `awaiting_confirmation` and never setting
`requiresConfirm`; yet `checkForUncommittedData` itself (had it been
reached) classifies the very same state as uncommitted data, which is the
behaviour the claim — and the code's own comment — demand. -/
theorem restore_safety_gate_skipped :
    (Restore.checkTargetDatasetExists restoreBugEnv.localList "tank/target").1 = false
    ∧ Restore.checkForUncommittedData restoreBugEnv "tank/target" = .ok true
    ∧ (Restore.performRestore restoreBugEnv restoreBugJob).restoreInvoked = some false
    ∧ (Restore.performRestore restoreBugEnv restoreBugJob).job.status = "completed"
    ∧ (Restore.performRestore restoreBugEnv restoreBugJob).job.status ≠ "awaiting_confirmation"
    ∧ (Restore.performRestore restoreBugEnv restoreBugJob).job.requiresConfirm = false := by
  refine ⟨rfl, rfl, rfl, rfl, ?_, rfl⟩
  intro h
  exact absurd h (by decide)

/-- C9 counterexample: a job created at time 0 reaching its terminal state
at time 1800 should, per the claim, still be returned at time 4000
(4000 < 1800 + 3600); but the cleanup fires one hour after creation
(time 3600), finds the job terminal, and evicts it — `getJob` no longer
returns it at 4000. -/
theorem job_eviction_counterexample :
    4000 < 1800 + Restore.retentionSeconds
    ∧ Restore.getJobReturns ⟨0, some 1800⟩ 4000 = false := by
  decide

/-- C9 amended: the retention hour is measured from job creation, not from
terminal-state entry: a job that is terminal by `startTime + 3600` is
returned at every instant before `startTime + 3600` and at none from then
on; a job not yet terminal at `startTime + 3600` is never evicted at all. -/
theorem job_eviction_amended (j : Restore.JobTimeline) (τ : Nat)
    (hterm : j.terminalTime = some τ) :
    (τ ≤ j.startTime + Restore.retentionSeconds →
      (∀ t, t < j.startTime + Restore.retentionSeconds →
        Restore.getJobReturns j t = true)
      ∧ (∀ t, j.startTime + Restore.retentionSeconds ≤ t →
        Restore.getJobReturns j t = false))
    ∧ (j.startTime + Restore.retentionSeconds < τ →
      ∀ t, Restore.getJobReturns j t = true) := by
  refine ⟨fun hτ => ⟨fun t ht => ?_, fun t ht => ?_⟩, fun hτ t => ?_⟩ <;>
    · simp [Restore.getJobReturns, Restore.evictedAt, Restore.isTerminalAt, hterm]
      omega

/-- C9 amended witness: job created at 0, terminal at 1800: returned at
3599, evicted from 3600 on. -/
theorem job_eviction_amended_witness :
    (⟨0, some 1800⟩ : Restore.JobTimeline).terminalTime = some 1800
    ∧ 1800 ≤ 0 + Restore.retentionSeconds
    ∧ Restore.getJobReturns ⟨0, some 1800⟩ 3599 = true
    ∧ Restore.getJobReturns ⟨0, some 1800⟩ 3600 = false := by
  have h := job_eviction_amended ⟨0, some 1800⟩ 1800 rfl
  exact ⟨rfl, by decide, (h.1 (by decide)).1 3599 (by decide),
    (h.1 (by decide)).2 3600 (by decide)⟩
